import Mathlib

/-!
Shallow embedding of the TagStudio SQLAlchemy port (the `alt_core` library
engine, the generic query helpers, the database bootstrap, the thumbnail
renderer, the navigation history and the recent-libraries settings logic),
together with theorems settling the frozen claims about it.

Conventions.  Python lists are Lean `List`s; Python dicts (which preserve
insertion order) are association lists `List (K × V)` manipulated only
through helpers with dict semantics; machine integers are `Nat`/`Int`
(Python ints are unbounded); fallible operations return `Option`/`Except`.
Entities whose declarations are not part of this tree (`Entry`,
`ts_core`, `src/core/constants.py`, `src/core/utils`) are modelled from the
spec; each such definition carries a doc comment starting with
`Modelled from the spec:`.
-/

namespace TagStudio

/-- Python-style list index resolution: a negative index `i` addresses
`len + i`; an index out of `[0, len)` after that adjustment is `none`
(Python raises `IndexError`). -/
def pyIdx (len : Nat) (i : Int) : Option Nat :=
  let j : Int := if i < 0 then (len : Int) + i else i
  if 0 ≤ j ∧ j < (len : Int) then some j.toNat else none

/-- Python `l[i]` with negative-index support. -/
def pyGet (l : List α) (i : Int) : Option α :=
  match pyIdx l.length i with
  | some j => l.get? j
  | none => none

/-- Python `l[i] = a` with negative-index support; an out-of-range index
leaves the list unchanged (Python raises `IndexError`; the theorems'
hypotheses keep every such write in range). -/
def pySet (l : List α) (i : Int) (a : α) : List α :=
  match pyIdx l.length i with
  | some j => l.set j a
  | none => l

/-- Python string comparison `a <= b` on the underlying code points
(structural, character-list based). -/
def chars_le : List Char → List Char → Bool
  | [], _ => true
  | _ :: _, [] => false
  | a :: as, b :: bs => if a < b then true else if b < a then false else chars_le as bs

/-- Python `a <= b` on strings. -/
def py_str_le (a b : String) : Bool := chars_le a.data b.data

/-- Structural worker for `py_split_on` (the fuel starts at the character
count, and each step consumes at least one character for a non-empty
separator, so the fuel-exhausted case is unreachable). -/
def split_on_chars (sep : List Char) : Nat → List Char → List Char → List (List Char)
  | 0, rest, acc => [acc.reverse ++ rest]
  | fuel + 1, l, acc =>
    match l with
    | [] => [acc.reverse]
    | c :: cs =>
      if sep.isPrefixOf (c :: cs) then
        acc.reverse :: split_on_chars sep fuel ((c :: cs).drop sep.length) []
      else split_on_chars sep fuel cs (c :: acc)

/-- Python `s.split(sep)` with an explicit non-empty separator (also
`String.splitOn`). -/
def py_split_on (s sep : String) : List String :=
  if sep.data = [] then [s]
  else (split_on_chars sep.data s.data.length s.data []).map String.mk

/-- Python `s.replace(pat, rep)` (left-to-right, non-overlapping; the
empty-pattern case is never used). -/
def py_replace (s pat rep : String) : String :=
  if pat.data = [] then s else String.intercalate rep (py_split_on s pat)

/-- Python `s.lower()` over the code points. -/
def py_lower (s : String) : String := String.mk (s.data.map Char.toLower)

/-- Python `s.startswith(p)`. -/
def py_starts_with (s p : String) : Bool := p.data.isPrefixOf s.data

/-- Errors raised by the embedded Python code. -/
inductive PyErr
  | notFound          : PyErr  -- `ValueError("... not found")`
  | unmappedInstance  : PyErr  -- SQLAlchemy `UnmappedInstanceError`, raised by `session.expunge(None)`
  | attributeError    : PyErr  -- assignment to a read-only `@property`
deriving DecidableEq, Repr

/-- Content stored under a field id in the engine's dict-keyed field
representation (`alt_core/library.py`): text and datetime fields hold a
string, tag-box fields hold a list of tag ids. -/
inductive FContent
  | str (s : String) : FContent
  | ids (l : List Nat) : FContent
deriving DecidableEq, Repr

/-- One entry field: the one-key dict `{field_id: content}` that
`alt_core/library.py` appends to `entry.fields`.  `fid` is
`get_field_attr(field, "id")` (the single key), `content` is
`get_field_attr(field, "content")`. -/
structure EField where
  fid : Nat
  content : FContent
deriving DecidableEq, Repr

/-- Modelled from the spec: the `Entry` declaration
(`src/database/table_declarations/entry.py`) is not in this tree.  Per the
spec an Entry owns an ordered list of fields, and the engine generation
under test addresses that list in the dict-keyed representation (`EField`). -/
structure Entry where
  id : Nat
  fields : List EField
deriving DecidableEq, Repr

/-- The ORM `Tag` of `src/database/table_declarations/tag.py`.  The
`subtags` relation is modelled as the list of related tag ids; `shorthand`
of `None` is modelled as `""`. -/
structure Tag where
  id : Nat
  name : String
  shorthand : String
  aliases : List String
  subtags : List Nat
deriving DecidableEq, Repr

/-- `Tag.subtag_ids` (tag.py lines 38-40) is a read-only `@property`
computed as `[tag.id for tag in self.subtags]`: it returns a fresh list
each time it is read, and assigning to it raises `AttributeError`. -/
def Tag.subtag_ids (t : Tag) : List Nat := t.subtags

/-- Modelled from the spec: the legacy default-field catalog
(`self.default_fields`, 27 slots, stable integer ids from 0) that
`get_field_obj` indexes.  The attribute is never initialised in this tree
(it came from `src/core`, which is absent); names and kinds follow spec
§3/§4.4/§9 and the field-id comments in `library.py` (Title=0, Author=1,
Artist=2, Description=4, Notes=5, Tags=6, Content Tags=7, Meta Tags=8,
Date Published=14, Source=21). -/
def default_fields : List (String × String) :=
  [("Title", "text_line"), ("Author", "text_line"), ("Artist", "text_line"),
   ("URL", "text_line"), ("Description", "text_box"), ("Notes", "text_box"),
   ("Tags", "tag_box"), ("Content Tags", "tag_box"), ("Meta Tags", "tag_box"),
   ("Collation", "collation"), ("Date", "datetime"), ("Date Created", "datetime"),
   ("Date Modified", "datetime"), ("Date Taken", "datetime"),
   ("Date Published", "datetime"), ("Archived", "checkbox"),
   ("Favorite", "checkbox"), ("Book", "collation"), ("Comic", "collation"),
   ("Series", "collation"), ("Manga", "collation"), ("Source", "text_line"),
   ("Date Uploaded", "datetime"), ("Date Released", "datetime"),
   ("Volume", "collation"), ("Anthology", "collation"), ("Magazine", "collation")]

/-- Modelled from the spec: `ts_core.TEXT_FIELDS` (ts_core.py is not in
this tree), the list of text-kind type strings used by
`add_field_to_entry`. -/
def TEXT_FIELDS : List String := ["text_line", "text_box"]

/-- `Library.get_field_obj`: the catalog template `(name, type)` for a
field id, or the `Unknown Field`/`unknown` placeholder beyond the catalog
bounds. -/
def get_field_obj (field_id : Nat) : String × String :=
  if field_id < default_fields.length then default_fields.getD field_id ("", "")
  else ("Unknown Field", "unknown")

/-- `get_field_attr(field, "type")`: the type string the catalog assigns to
the field's id. -/
def field_type_of (fid : Nat) : String := (get_field_obj fid).2

/-- Dict lookup on an insertion-ordered association list. -/
def dget (m : List (Nat × α)) (k : Nat) : Option α :=
  (m.find? (fun kv => kv.1 == k)).map (fun kv => kv.2)

/-- Dict write: overwrite the value under an existing key in place,
otherwise append the new key at the end (Python dict insertion order). -/
def dset (m : List (Nat × α)) (k : Nat) (v : α) : List (Nat × α) :=
  if m.any (fun kv => kv.1 == k) then
    m.map (fun kv => if kv.1 == k then (kv.1, v) else kv)
  else m ++ [(k, v)]

/-- The in-memory `Library` state of `alt_core/library.py` that the
embedded operations read and write: the entry rows, the loaded tag list,
and the three tag caches, plus the runtime tag-id counter. -/
structure Library where
  entries : List Entry
  tags : List Tag
  tag_id_to_index_map : List (Nat × Nat)
  tag_id_to_cluster_map : List (Nat × List Nat)
  tag_strings_to_id_map : List (String × List Nat)
  next_tag_id : Nat
deriving DecidableEq, Repr

/-- Row lookup `select(Entry).where(Entry.id == entry_id)`. -/
def find_entry (lib : Library) (entry_id : Nat) : Option Entry :=
  lib.entries.find? (fun e => e.id == entry_id)

/-- `Library.get_entry`.  The source calls `session.expunge(entry)` before
the `entry is None` check; SQLAlchemy's `expunge` raises
`UnmappedInstanceError` when handed `None`, so the
`raise ValueError(f"Entry with id ... not found.")` line below it is
unreachable in the missing-id case. -/
def get_entry (lib : Library) (entry_id : Nat) : Except PyErr Entry :=
  match find_entry lib entry_id with
  | none => Except.error PyErr.unmappedInstance
  | some e => Except.ok e

/-- Replace the field list of the entry with the given id (the effect of
mutating the entry object returned by `get_entry`). -/
def set_entry_fields (lib : Library) (entry_id : Nat) (fs : List EField) : Library :=
  { lib with entries := lib.entries.map (fun e => if e.id == entry_id then ⟨e.id, fs⟩ else e) }

/-- `Library.get_field_index_in_entry`: all positions in the entry's field
list whose field id matches. -/
def get_field_index_in_entry (e : Entry) (field_id : Nat) : List Nat :=
  (e.fields.enum.filter (fun p => p.2.fid == field_id)).map (fun p => p.1)

/-- `Library.does_field_content_exist`: whether some field of the given id
on the entry holds exactly the given content.  An unknown entry id makes
`get_entry` raise; the embedded callers only reach this with a present
entry. -/
def does_field_content_exist (lib : Library) (entry_id field_id : Nat) (content : FContent) : Bool :=
  match find_entry lib entry_id with
  | none => false
  | some e => (e.fields.filter (fun f => f.fid == field_id)).any (fun f => f.content == content)

/-- `Library.add_field_to_entry`: append an empty field of the kind the
catalog resolves for the id; unknown kinds are logged and ignored. -/
def add_field_to_entry (lib : Library) (entry_id field_id : Nat) : Library :=
  match find_entry lib entry_id with
  | none => lib
  | some e =>
    let ftype := field_type_of field_id
    if TEXT_FIELDS.contains ftype then
      set_entry_fields lib entry_id (e.fields ++ [⟨field_id, FContent.str ""⟩])
    else if ftype == "tag_box" then
      set_entry_fields lib entry_id (e.fields ++ [⟨field_id, FContent.ids []⟩])
    else if ftype == "datetime" then
      set_entry_fields lib entry_id (e.fields ++ [⟨field_id, FContent.str ""⟩])
    else lib

/-- `Library.update_entry_field`.  `append`/`extend` adds each item of the
content not already present, `replace` overwrites, `remove` deletes each
listed item (Python `list.remove`, first occurrence).  The iteration modes
are only ever called with list content on tag-box fields; other shape
combinations (which Python would iterate character-wise or fault on) leave
the field unchanged. -/
def update_entry_field (lib : Library) (entry_id : Nat) (field_index : Int)
    (content : FContent) (mode : String) : Library :=
  match find_entry lib entry_id with
  | none => lib
  | some e =>
    match pyGet e.fields field_index with
    | none => lib
    | some f =>
      let f' :=
        if py_lower mode == "append" || py_lower mode == "extend" then
          match content, f.content with
          | FContent.ids new, FContent.ids cur =>
            EField.mk f.fid (FContent.ids (new.foldl
              (fun acc i => if acc.contains i then acc else acc ++ [i]) cur))
          | _, _ => f
        else if py_lower mode == "replace" then EField.mk f.fid content
        else if py_lower mode == "remove" then
          match content, f.content with
          | FContent.ids rem, FContent.ids cur =>
            EField.mk f.fid (FContent.ids (rem.foldl (fun acc i => acc.erase i) cur))
          | _, _ => f
        else f
      set_entry_fields lib entry_id (pySet e.fields field_index f')

/-- `Library.search_tags` is a fixed stub in this tree: it ignores every
argument and returns `[0, 1]`. -/
def search_tags (_query : String) (_include_cluster _ignore_builtin : Bool)
    (_threshold : Nat) (_context : List String) : List Nat := [0, 1]

/-- Modelled from the spec: `strip_web_protocol`
(`src/core/utils/web.py` is not in this tree) strips a leading web
protocol from a string. -/
def strip_web_protocol (s : String) : String :=
  ["https://", "http://", "www.", "www2."].foldl
    (fun acc p => if py_starts_with acc p then String.mk (acc.data.drop p.data.length) else acc) s

/-- Modelled from the spec: `strip_punctuation`
(`src/core/utils/str.py` is not in this tree) removes punctuation
characters from a string, used when normalising tag names, shorthands and
aliases for the string-lookup map. -/
def strip_punctuation (s : String) : String :=
  String.mk (s.data.filter (fun c => ¬ (".,!?;:()[]\x7b\x7d<>/\\|-_\x27\"".data.contains c)))

/-- `Library.get_tag`: `self.tags[self._tag_id_to_index_map[int(tag_id)]]`;
a missing map entry is a `KeyError`, a stale index an `IndexError`, both
modelled as `none`. -/
def get_tag (lib : Library) (tag_id : Nat) : Option Tag :=
  match dget lib.tag_id_to_index_map tag_id with
  | none => none
  | some i => lib.tags.get? i

/-- `Library.get_tag_cluster`: the cluster-map entry for the id, `[]` when
absent. -/
def get_tag_cluster (lib : Library) (tag_id : Nat) : List Nat :=
  (dget lib.tag_id_to_cluster_map tag_id).getD []

/-- `map[name].append(id)` after `if name not in map: map[name] = []`. -/
def string_map_append (m : List (String × List Nat)) (k : String) (v : Nat) :
    List (String × List Nat) :=
  if m.any (fun kv => kv.1 == k) then
    m.map (fun kv => if kv.1 == k then (kv.1, kv.2 ++ [v]) else kv)
  else m ++ [(k, [v])]

/-- `Library._map_tag_strings_to_tag_id`: map the tag's stripped,
lower-cased name, shorthand and aliases to its id. -/
def map_tag_strings_to_tag_id (m : List (String × List Nat)) (t : Tag) :
    List (String × List Nat) :=
  let m := string_map_append m (py_lower (strip_punctuation t.name)) t.id
  let m := string_map_append m (py_lower (strip_punctuation t.shorthand)) t.id
  t.aliases.foldl (fun m a => string_map_append m (py_lower (strip_punctuation a)) t.id) m

/-- `Library.remove_tag`: the seven-step teardown.  Step 2 executes
`t.subtag_ids.remove(tag.id)`, but `subtag_ids` is a read-only `@property`
returning a fresh list (tag.py lines 38-40), so the `remove` mutates that
temporary and the tags' subtag relations are left unchanged.  An unknown
id makes the initial `get_tag` raise `KeyError` (`none` here). -/
def remove_tag (lib : Library) (tag_id : Nat) : Option Library :=
  match get_tag lib tag_id with
  | none => none
  | some tag =>
    -- Step [1/7]: strip the id from every tag_box field content across all
    -- entries (`list.remove` drops the first occurrence; the membership
    -- test on a non-list content would be a Python TypeError).
    let entries := lib.entries.map (fun e => Entry.mk e.id (e.fields.map (fun f =>
      if field_type_of f.fid == "tag_box" then
        match f.content with
        | FContent.ids c =>
          if c.contains tag_id then EField.mk f.fid (FContent.ids (c.erase tag.id)) else f
        | FContent.str _ => f
      else f)))
    -- Step [2/7]: `t.subtag_ids.remove(tag.id)` mutates the temporary list
    -- returned by the property; `lib.tags` is unchanged.
    let tags := lib.tags
    -- Step [3/7]: delete the id's cluster entry, then drop the id from
    -- every other cluster list (first occurrence).
    let cl := lib.tag_id_to_cluster_map.filter (fun kv => kv.1 ≠ tag.id)
    let cl := cl.map (fun kv =>
      if kv.2.contains tag_id then (kv.1, kv.2.erase tag.id) else kv)
    -- Step [4/7]: delete the id → index mapping.
    let im := lib.tag_id_to_index_map.filter (fun kv => kv.1 ≠ tag.id)
    -- Step [5/7]: `self.tags.remove(tag)` (first equal element).
    let tags := tags.erase tag
    -- Step [6/7]: clear the id → index map (discarding the step-4 result)
    -- and rebuild it from the shorter list.
    let _ := im
    let im := tags.enum.foldl (fun m p => dset m p.2.id p.1) []
    -- Step [7/7]: rebuild the string → ids map from scratch.
    let sm := tags.foldl map_tag_strings_to_tag_id []
    some (Library.mk entries tags im cl sm lib.next_tag_id)

/-- `Library.add_tag_to_library`.  Its first statement
`tag.subtag_ids = [x for x in tag.subtag_ids if x != tag.id]` evaluates the
comprehension, then assigns to `Tag.subtag_ids` — a `@property` with no
setter (tag.py lines 38-40) — which raises `AttributeError`; the id
assignment, the cache updates and the append are never reached. -/
def add_tag_to_library (_lib : Library) (tag : Tag) : Except PyErr (Library × Nat) :=
  let _stripped := tag.subtag_ids.filter (fun x => x ≠ tag.id)
  Except.error PyErr.attributeError

/-- `Library.clear_internal_vars` restricted to the modelled state: clears
the tag list and the three tag caches and resets the runtime tag-id
counter to 1000. -/
def clear_internal_vars (lib : Library) : Library :=
  Library.mk lib.entries [] [] [] [] 1000

/-- Python's `repr` of a list of strings, as interpolated by
`f"Original Tags: {tags}"`. -/
def py_list_repr (l : List String) : String :=
  "[" ++ String.intercalate ", " (l.map (fun s => "\x27" ++ s ++ "\x27")) ++ "]"

/-- `str(datetime.strptime(s, "%Y-%m-%d %H:%M:%S"))`: on a canonical
`YYYY-MM-DD HH:MM:SS` string this reproduces the input (a malformed input
raises; no embedded claim exercises that path). -/
def strptime_roundtrip (s : String) : String := s

/-- `list(set(tags))` followed by `tags.sort()`: the distinct elements in
ascending code-point order (deduplication makes the sort's stability and
the set's iteration order irrelevant). -/
def py_set_sorted (l : List String) : List String :=
  (l.eraseDups).insertionSort (fun a b => py_str_le a b = true)

/-- The `data` dict accepted by `add_generic_data_to_entry`; an absent key
is `none` (Python's `data.get(...)`/`in data.keys()` checks also treat
empty values as absent via truthiness). -/
structure GenericData where
  title : Option String
  author : Option String
  artist : Option String
  date_published : Option String
  tags : Option (List String)
  description : Option String
  content : Option String
  source : Option String
deriving DecidableEq, Repr

/-- The shared gate-and-add pattern of `add_generic_data_to_entry`: if no
field of the id on the entry already holds the content, append an empty
field of that id and `replace` the content into the entry's last field. -/
def gated_add (lib : Library) (entry_id field_id : Nat) (content : FContent) : Library :=
  if does_field_content_exist lib entry_id field_id content then lib
  else update_entry_field (add_field_to_entry lib entry_id field_id) entry_id (-1) content "replace"

/-- The per-name body of the `tags` loop in `add_generic_data_to_entry`:
match the normalised name via the `search_tags` stub, then append the first
match to an existing "Content Tags" field — but only when that field's
index is `> 0`, the sentinel for "none found" being `-1` — else create a
new "Content Tags" field (id 7) and append there. -/
def add_one_tag_match (entry_id : Nat) (tags : List String) (lib : Library) (tag : String) :
    Library :=
  let matching := search_tags (py_replace (py_replace tag "_" " ") "-" " ") false true 2 tags
  if matching ≠ [] then
    let content_tags_field_indices :=
      match find_entry lib entry_id with
      | some e => get_field_index_in_entry e 7
      | none => []
    let priority_field_index : Int :=
      match content_tags_field_indices.head? with
      | some i => (i : Int)
      | none => -1
    if priority_field_index > 0 then
      update_entry_field lib entry_id priority_field_index
        (FContent.ids [matching.headD 0]) "append"
    else
      update_entry_field (add_field_to_entry lib entry_id 7) entry_id (-1)
        (FContent.ids [matching.headD 0]) "append"
  else lib

/-- `Library.add_generic_data_to_entry`: the best-guess metadata importer.
Processes, in source order: title → Title (0), author → Author (1),
artist → Artist (2), date_published → Date Published (14), tags →
Content Tags (7) plus an `Original Tags: [...]` Notes (5) record,
description/content → Description (4), source → Source (21). -/
def add_generic_data_to_entry (lib : Library) (data : GenericData) (entry_id : Nat) : Library :=
  let lib := match data.title with
    | some t => if t ≠ "" then gated_add lib entry_id 0 (FContent.str t) else lib
    | none => lib
  let lib := match data.author with
    | some t => if t ≠ "" then gated_add lib entry_id 1 (FContent.str t) else lib
    | none => lib
  let lib := match data.artist with
    | some t => if t ≠ "" then gated_add lib entry_id 2 (FContent.str t) else lib
    | none => lib
  let lib := match data.date_published with
    | some t =>
      if t ≠ "" then gated_add lib entry_id 14 (FContent.str (strptime_roundtrip t)) else lib
    | none => lib
  let lib := match data.tags with
    | some tags0 =>
      if tags0 ≠ [] then
        -- split each `base_(extra)`-formatted name into `base` and `extra`
        let extra := tags0.foldl (fun acc tag =>
          if (py_split_on tag "_(").length > 1 then
            acc ++ py_split_on (py_replace tag ")" "") "_("
          else acc) []
        let tags := py_set_sorted (tags0 ++ extra)
        let tags := tags.filter (fun t => t ≠ "")
        let lib := tags.foldl (add_one_tag_match entry_id tags) lib
        -- record the processed tag-name list verbatim as a Notes field, once
        let str_tags := "Original Tags: " ++ py_list_repr tags
        if does_field_content_exist lib entry_id 5 (FContent.str str_tags) then lib
        else update_entry_field (add_field_to_entry lib entry_id 5) entry_id (-1)
          (FContent.str str_tags) "replace"
      else lib
    | none => lib
  let lib := match data.description with
    | some t => if t ≠ "" then gated_add lib entry_id 4 (FContent.str t) else lib
    | none => lib
  let lib := match data.content with
    | some t => if t ≠ "" then gated_add lib entry_id 4 (FContent.str t) else lib
    | none => lib
  match data.source with
  | some src =>
    if src ≠ "" then
      (py_split_on src " ").foldl (fun lib source =>
        if source ≠ "" ∧ source ≠ " " then
          gated_add lib entry_id 21 (FContent.str (strip_web_protocol source))
        else lib) lib
    else lib
  | none => lib

/-- First index of `x` in `l` (`list.index`; when `x` is absent Python
raises `ValueError` — this total version then returns `l.length`, a value
the callers' hypotheses rule out). -/
def first_idx (l : List Nat) (x : Nat) : Nat :=
  match l with
  | [] => 0
  | a :: rest => if a == x then 0 else first_idx rest x + 1

/-- Append tag id `i` to the content of `all_fields[idx]` when not already
present (the inner union loop of `mirror_entry_fields`). -/
def union_into (all_fields : List EField) (idx : Nat) (i : Nat) : List EField :=
  match all_fields.get? idx with
  | some f =>
    match f.content with
    | FContent.ids cur =>
      if cur.contains i then all_fields
      else all_fields.set idx (EField.mk f.fid (FContent.ids (cur ++ [i])))
    | FContent.str _ => all_fields
  | none => all_fields

/-- One step of the merge loop of `mirror_entry_fields` over the parallel
`(all_fields, all_ids)` accumulator: a tag-box field whose id was already
seen is unioned into the first field with that id; otherwise a field not
yet present is appended (with its id). -/
def merge_step (acc : List EField × List Nat) (field : EField) : List EField × List Nat :=
  let (all_fields, all_ids) := acc
  if field_type_of field.fid == "tag_box" && all_ids.contains field.fid then
    match field.content with
    | FContent.ids content =>
      (content.foldl (fun af i => union_into af (first_idx all_ids field.fid) i) all_fields,
       all_ids)
    | FContent.str _ => acc
  else if all_fields.contains field then acc
  else (all_fields ++ [field], all_ids ++ [field.fid])

/-- The fields scanned by `mirror_entry_fields`' merge loop: for each given
id, skipping falsy id 0, the fields of that entry in order (a missing id
would make `get_entry` raise). -/
def gather_fields (lib : Library) (entry_ids : List Nat) : List EField :=
  entry_ids.foldl (fun acc id =>
    if id ≠ 0 then
      match find_entry lib id with
      | some e => acc ++ e.fields
      | none => acc
    else acc) []

/-- The merged field list `all_fields` computed by `mirror_entry_fields`. -/
def merge_all (lib : Library) (entry_ids : List Nat) : List EField :=
  ((gather_fields lib entry_ids).foldl merge_step ([], [])).1

/-- The canonical field-id order applied after mirroring. -/
def mirror_order : List Nat :=
  [0, 1, 2, 9, 17, 18, 19, 20, 10, 14, 11, 12, 13, 22, 4, 5, 8, 7, 6, 3, 21]

/-- The sort key `order.index(get_field_attr(x, "id"))`. -/
def order_key (order : List Nat) (f : EField) : Nat := first_idx order f.fid

/-- Python's `sorted(fields, key=lambda x: order.index(...))`: a stable
sort by the key; `List.insertionSort` (which inserts an element before the
first tie) is stable. -/
def sort_fields_by (order : List Nat) (fs : List EField) : List EField :=
  fs.insertionSort (fun a b => order_key order a ≤ order_key order b)

/-- The per-entry assignment step of `mirror_entry_fields`' second loop:
replace the entry's field list with the merged-and-sorted one (a missing
id would make `get_entry` raise). -/
def mirror_assign (fs : List EField) (lib : Library) (id : Nat) : Library :=
  match find_entry lib id with
  | some _ => set_entry_fields lib id fs
  | none => lib

/-- `Library.mirror_entry_fields`: compute the merged field list across the
given entries, then assign it, re-sorted by the canonical order, to every
given entry. -/
def mirror_entry_fields (lib : Library) (entry_ids : List Nat) : Library :=
  let all_fields := merge_all lib entry_ids
  entry_ids.foldl (mirror_assign (sort_fields_by mirror_order all_fields)) lib

/-- Decidable reading of "the field's tag-id list has no duplicates"
(vacuous for text content). -/
def content_nodup (f : EField) : Bool :=
  match f.content with
  | FContent.ids l => decide l.Nodup
  | FContent.str _ => true

/-- `queries.get_object_by_id`: fetch one row by primary key; here the
`result is None` check precedes the expunge, so a missing id raises
`ValueError(f"No ... found.")` — modelled as `notFound`. -/
def get_object_by_id (store : List (Nat × α)) (id : Nat) : Except PyErr α :=
  match store.find? (fun kv => kv.1 == id) with
  | none => Except.error PyErr.notFound
  | some kv => Except.ok kv.2

/-- A filesystem path as its list of segments. -/
abbrev FPath := List String

/-- Modelled from the spec: the reserved library folder name
(`ts_core.TS_FOLDER_NAME`; ts_core.py is not in this tree, the value is
fixed by library.py's comment "If '.TagStudio' is the name, raise path by
one"). -/
def TS_FOLDER_NAME : String := ".TagStudio"

/-- Modelled from the spec: the fixed reserved schema filename
(`ts_core.LIBRARY_FILENAME`); only its constancy matters here. -/
def LIBRARY_FILENAME : String := "ts_library.sqlite"

/-- Modelled from the spec: the reserved backup subfolder name. -/
def BACKUP_FOLDER_NAME : String := "backups"

/-- Modelled from the spec: the reserved collage-output subfolder name. -/
def COLLAGE_FOLDER_NAME : String := "collages"

/-- The filesystem state the bootstrap operations act on: existing files,
existing directories, and the schema files that have been created and
seeded with the default Archived/Favorite tags. -/
structure FileSystem where
  files : List FPath
  dirs : List FPath
  seeded : List FPath
deriving DecidableEq, Repr

/-- "If '.TagStudio' is the name, raise path by one" (both
`create_library` and `open_library` begin with this). -/
def drop_ts_segment (p : FPath) : FPath :=
  match p.getLast? with
  | some seg => if seg == TS_FOLDER_NAME then p.dropLast else p
  | none => p

/-- `Library.verify_ts_folders`: create the library folder and its backup
and collage subfolders (`mkdir(parents=True, exist_ok=True)`). -/
def verify_ts_folders (fs : FileSystem) (root : FPath) : FileSystem :=
  { fs with dirs := fs.dirs ++
      [root ++ [TS_FOLDER_NAME],
       root ++ [TS_FOLDER_NAME, BACKUP_FOLDER_NAME],
       root ++ [TS_FOLDER_NAME, COLLAGE_FOLDER_NAME]] }

/-- `Library.create_library`: strip the reserved final segment, create the
folders, create the schema at `path/TS_FOLDER_NAME/LIBRARY_FILENAME`
(`make_engine` + `make_tables` on that connection string) and seed the
library defaults there; reports success as a boolean. -/
def create_library (fs : FileSystem) (path : FPath) : FileSystem × Bool :=
  let path := drop_ts_segment path
  let fs := verify_ts_folders fs path
  let schema := path ++ [TS_FOLDER_NAME, LIBRARY_FILENAME]
  (⟨fs.files ++ [schema], fs.dirs, fs.seeded ++ [schema]⟩, true)

/-- `Library.open_library`: strip the reserved final segment, then test for
an existing schema at `sqlite_path = path / ts_core.LIBRARY_FILENAME` —
note the missing `TS_FOLDER_NAME` component — opening it when present and
falling back to `create_library` otherwise. -/
def open_library (fs : FileSystem) (path : FPath) : FileSystem × Bool :=
  let path := drop_ts_segment path
  let sqlite_path := path ++ [LIBRARY_FILENAME]
  if fs.files.contains sqlite_path then (fs, true)
  else create_library fs path

/-- The schema location the spec's sentence states for the open check:
`path/<library-folder>/<library-filename>`. -/
def spec_schema_path (path : FPath) : FPath :=
  drop_ts_segment path ++ [TS_FOLDER_NAME, LIBRARY_FILENAME]

/-- Modelled from the spec: the recognised ordinary-image extensions
(`src/core/constants.py` is not in this tree; the lists are configuration
data per spec §6 — only membership matters to the claims). -/
def IMAGE_TYPES : List String :=
  ["png", "jpg", "jpeg", "gif", "webp", "bmp", "tif", "tiff", "heic", "heif", "avif", "ico"]

/-- Modelled from the spec: the recognised raw-camera-image extensions. -/
def RAW_IMAGE_TYPES : List String := ["raw", "dng", "cr2", "nef", "arw", "orf", "rw2"]

/-- Modelled from the spec: the recognised video extensions. -/
def VIDEO_TYPES : List String :=
  ["mp4", "webm", "mov", "mkv", "avi", "flv", "m4v", "wmv"]

/-- Modelled from the spec: the recognised plain-text extensions. -/
def PLAINTEXT_TYPES : List String :=
  ["txt", "md", "css", "html", "xml", "json", "js", "csv", "ini", "toml", "yaml", "yml", "py"]

/-- `os.path.splitext(filepath)[1][1:].lower()`: the lower-cased text after
the final `.` (empty when there is none; `splitext`'s leading-dot-file
corner case is not exercised by any claim). -/
def splitext_ext (filepath : String) : String :=
  let parts := py_split_on filepath "."
  if parts.length ≤ 1 then "" else py_lower (parts.getLastD "")

/-- The bitmap a render produces: one of the template placeholders scaled
to the given size, or a decoded image composited by the rounded-rectangle
(default) or gradient pipeline. -/
inductive Bitmap
  | loading (w h : Int) : Bitmap
  | broken (w h : Int) : Bitmap
  | file_default (w h : Int) : Bitmap
  | decoded_rounded (w h : Int) : Bitmap
  | decoded_gradient (w h : Int) : Bitmap
deriving DecidableEq, Repr

/-- The terminal `updated` emission: a pixmap with its reported size and
detected extension, or the empty-pixmap fallback sized to the original
request. -/
inductive Emitted
  | rendered (bm : Bitmap) (size_w size_h : Int) (ext : String) : Emitted
  | empty_pixmap (w h : Nat) (ext : String) : Emitted
deriving DecidableEq, Repr

/-- One complete `ThumbRenderer.render` call's observable output: the
`updated_ratio` emissions in order, then the final `updated` emission. -/
structure RenderResult where
  ratio_emits : List ℚ
  emitted : Emitted
deriving DecidableEq, Repr

/-- `ThumbRenderer.render` evaluated against a filesystem on which
`filepath` names no existing file.  Every file access then raises —
`Image.open`/`open()` a `FileNotFoundError`, `rawpy.imread` a
`LibRawIOError` (leaving `image = None`, converted to
`UnidentifiedImageError`), `cv2` a `cv2.error` from `cvtColor(None, ...)` —
all members of the handler's caught tuple, which emits ratio 1 (when
requested) and substitutes the broken template resized to
`(adj_size, adj_size)`.  The unrecognised-extension branch never touches
the file: it resizes the generic-file template and proceeds down the
success path. -/
def render_missing (filepath : String) (bw bh : Nat) (pixel_ratio : ℚ)
    (is_loading gradient update_on_ratio_change : Bool) : RenderResult :=
  let adj : Int := ⌈(max bw bh : ℚ) * pixel_ratio⌉
  let out_dim : Int := ⌈(adj : ℚ) / pixel_ratio⌉
  if is_loading then
    RenderResult.mk (if update_on_ratio_change then [1] else [])
      (Emitted.rendered (Bitmap.loading adj adj) out_dim out_dim "")
  else if filepath ≠ "" then
    let extension := splitext_ext filepath
    if IMAGE_TYPES.contains extension ∨ RAW_IMAGE_TYPES.contains extension ∨
        VIDEO_TYPES.contains extension ∨ PLAINTEXT_TYPES.contains extension then
      RenderResult.mk (if update_on_ratio_change then [1] else [])
        (Emitted.rendered (Bitmap.broken adj adj) out_dim out_dim extension)
    else
      -- generic placeholder path: `thumb_file_default_512` resized to the
      -- square `(adj_size, adj_size)`, so `new_x = new_y = adj_size` and the
      -- requested ratio emission is `new_x / new_y` (1 whenever `adj ≠ 0`;
      -- `adj = 0` would be a Python ZeroDivisionError, excluded by the
      -- theorems' hypotheses), then the compositing step
      let final := if gradient then Bitmap.decoded_gradient adj adj
                   else Bitmap.decoded_rounded adj adj
      RenderResult.mk
        (if update_on_ratio_change then [(adj : ℚ) / (adj : ℚ)] else [])
        (Emitted.rendered final out_dim out_dim extension)
  else
    RenderResult.mk [] (Emitted.empty_pixmap bw bh "")

/-- One navigation-history record (`NavigationState` in ts_qt.py); frame
contents are abstracted to the item ids they display. -/
structure NavigationState where
  contents : List Nat
  scrollbar_pos : Int
  page_index : Int
  page_count : Int
  search_text : String
  thumb_size : Option Int
  spacing : Option Int
deriving DecidableEq, Repr

/-- The navigation-relevant driver state: the history stack and the current
index (initially `-1`). -/
structure Driver where
  nav_frames : List NavigationState
  cur_frame_idx : Int
deriving DecidableEq, Repr

/-- `self.nav_frames[i].scrollbar_pos = v` (Python indexing, including
negative indices; out of range would be an `IndexError`). -/
def set_scrollbar (l : List NavigationState) (i : Int) (v : Int) : List NavigationState :=
  match pyIdx l.length i with
  | some j =>
    match l.get? j with
    | some fr => l.set j { fr with scrollbar_pos := v }
    | none => l
  | none => l

/-- The drop-empty-frame step shared by both `nav_forward` branches:
`if self.nav_frames and not self.nav_frames[self.cur_frame_idx].contents:
self.nav_frames.pop()`, reporting whether the pop happened (`trimmed`). -/
def drop_empty_current (frames : List NavigationState) (cur : Int) :
    List NavigationState × Bool :=
  match pyGet frames cur with
  | some fr => if fr.contents.isEmpty then (frames.dropLast, true) else (frames, false)
  | none => (frames, false)

/-- `QtDriver.nav_forward`: the history-stack mutation (the trailing
`update_thumbs`/scrollbar/search-field redraw acts on the GUI, not on this
state).  `sb_pos` and `search_text` are the scrollbar position and search
text read from the GUI at entry. -/
def nav_forward (d : Driver) (frame_content : Option (List Nat))
    (page_index page_count : Int) (sb_pos : Int) (search_text : String) : Driver :=
  if (d.nav_frames.length : Int) > d.cur_frame_idx + 1 then
    -- moving forward (with or without new content) in the middle of the stack
    let (frames, trimmed) :=
      match frame_content with
      | some c =>
        -- trim the stack to the current position (`[: cur_frame_idx + 1]`),
        -- drop the now-last frame if its contents are empty, append the
        -- new record
        let frames := d.nav_frames.take (d.cur_frame_idx + 1).toNat
        let (frames, trimmed) := drop_empty_current frames d.cur_frame_idx
        (frames ++ [NavigationState.mk c 0 page_index page_count search_text none none],
         trimmed)
      | none => (d.nav_frames, false)
    let frames := set_scrollbar frames d.cur_frame_idx sb_pos
    Driver.mk frames (d.cur_frame_idx + (if trimmed then 0 else 1))
  else
    -- moving forward at the end of the stack, only with new content
    match frame_content with
    | some c =>
      let (frames, trimmed) := drop_empty_current d.nav_frames d.cur_frame_idx
      let frames := frames ++ [NavigationState.mk c 0 page_index page_count search_text none none]
      let frames := set_scrollbar frames d.cur_frame_idx sb_pos
      Driver.mk frames (d.cur_frame_idx + (if trimmed then 0 else 1))
    | none => d

/-- `QtDriver.nav_back`: when the index is positive, record the scrollbar
position on the frame being left and decrement; otherwise nothing. -/
def nav_back (d : Driver) (sb_pos : Int) : Driver :=
  if d.cur_frame_idx > 0 then
    Driver.mk (set_scrollbar d.nav_frames d.cur_frame_idx sb_pos) (d.cur_frame_idx - 1)
  else d

/-- Dict write on a string-keyed association list (`all_libs[key] = value`):
overwrite in place when the key exists, else append. -/
def sdict_set (m : List (String × String)) (k v : String) : List (String × String) :=
  if m.any (fun kv => kv.1 == k) then
    m.map (fun kv => if kv.1 == k then (kv.1, v) else kv)
  else m ++ [(k, v)]

/-- `QtDriver.update_libs_list`: start a dict from the fresh
timestamp-keyed entry for `path`, re-add every persisted entry whose path
differs, sort most-recent-first by key (Python's `sorted` with
`reverse=True` is stable; `List.insertionSort` with the flipped `≤`
comparator matches it), and persist only the first `ITEMS_LIMIT = 5`
items. -/
def update_libs_list (settings : List (String × String)) (now_key path : String) :
    List (String × String) :=
  let all_libs := settings.foldl
    (fun acc kv => if kv.2 ≠ path then sdict_set acc kv.1 kv.2 else acc)
    [(now_key, path)]
  (all_libs.insertionSort (fun a b => py_str_le b.1 a.1 = true)).take 5

/-- A sequence of `open_library` calls as seen by the settings store: each
open runs `update_libs_list` with a fresh `str(time.time())` key, starting
from the pristine empty store. -/
def open_sequence (opens : List (String × String)) : List (String × String) :=
  opens.foldl (fun st kp => update_libs_list st kp.1 kp.2) []

/-- The C1 failing input: an open library holding tag X (id 1000), tag Y
(id 1001) listing X as a direct subtag, and one entry whose Tags (id 6)
tag-box contains X, with the caches consistent with that content. -/
def c1_lib : Library :=
  Library.mk
    [Entry.mk 1 [EField.mk 6 (FContent.ids [1000])]]
    [Tag.mk 1000 "x" "" [] [], Tag.mk 1001 "y" "" [] [1000]]
    [(1000, 0), (1001, 1)]
    [(1000, [1001])]
    [("x", [1000]), ("y", [1001])]
    1002

/-- The library state `remove_tag c1_lib 1000` produces. -/
def c1_lib' : Library :=
  Library.mk
    [Entry.mk 1 [EField.mk 6 (FContent.ids [])]]
    [Tag.mk 1001 "y" "" [] [1000]]
    [(1001, 0)]
    []
    [("y", [1001]), ("", [1001])]
    1002

/-- The C3 failing input: an entry with no fields yet (the scraped data
consists of the single tag name `"a"`). -/
def c3_lib : Library := Library.mk [Entry.mk 1 []] [] [] [] [] 1000

/-- The C3 scraped-data dict `{"tags": ["a"]}`. -/
def c3_data : GenericData := GenericData.mk none none none none (some ["a"]) none none none

/-- The C4 concrete instance: entry E1 with tag-box id 6 = {100, 101} and
entry E2 with tag-box id 6 = {101, 102}. -/
def c4_lib : Library :=
  Library.mk
    [Entry.mk 1 [EField.mk 6 (FContent.ids [100, 101])],
     Entry.mk 2 [EField.mk 6 (FContent.ids [101, 102])]]
    [] [] [] [] 1000

/-- The C9 concrete instance: six distinct library paths opened in
sequence at increasing timestamps. -/
def c9_opens : List (String × String) :=
  [("1", "p1"), ("2", "p2"), ("3", "p3"), ("4", "p4"), ("5", "p5"), ("6", "p6")]

/-! ## Claim theorems -/

/-- C1 (code bug, evaluated at the failing input): after
`remove_tag(1000)` the id 1000 is gone from the entry's tag-box content,
from every cluster-map entry (`get_tag_cluster` no longer returns it) and
from the index map (`get_tag 1000` fails), and the teardown runs in the
stated seven-step order — but tag 1001, which listed 1000 as a direct
subtag, still lists it, because step 2's `t.subtag_ids.remove(tag.id)`
mutates the temporary list returned by the read-only `subtag_ids`
property. -/
theorem claim_C1_remove_tag_cascade :
    remove_tag c1_lib 1000 = some c1_lib' ∧
    (c1_lib'.entries.map Entry.fields) = [[EField.mk 6 (FContent.ids [])]] ∧
    get_tag c1_lib' 1000 = none ∧
    get_tag_cluster c1_lib' 1000 = [] ∧
    c1_lib'.tag_id_to_cluster_map = [] ∧
    ((c1_lib'.tags.find? (fun t => t.id == 1001)).map Tag.subtag_ids) = some [1000] := by
  decide

/-- C2 (code bug): `add_tag_to_library` cannot assign the next sequential
id or strip a self-reference for any tag, because its first statement
assigns to the read-only `Tag.subtag_ids` property and raises
`AttributeError`; the runtime id counter is indeed reset to 1000 when the
library state is (re)initialised. -/
theorem claim_C2_add_tag_self_reference :
    (∀ (lib : Library) (t : Tag),
      add_tag_to_library lib t = Except.error PyErr.attributeError) ∧
    (∀ lib : Library, (clear_internal_vars lib).next_tag_id = 1000) := by
  exact ⟨fun _ _ => rfl, fun _ => rfl⟩

/-- C3 (code bug, evaluated at the failing input): the first
`add_generic_data_to_entry` call creates a "Content Tags" (id 7) field at
list index 0 plus the `Original Tags` Notes field; the second identical
call appends a duplicate "Content Tags" field, because the existing
field's index 0 fails the `priority_field_index > 0` test whose
none-found sentinel is `-1` — so the call is not idempotent. -/
theorem claim_C3_generic_data_import_not_idempotent :
    (find_entry (add_generic_data_to_entry c3_lib c3_data 1) 1).map Entry.fields =
      some [EField.mk 7 (FContent.ids [0]),
            EField.mk 5 (FContent.str "Original Tags: [\x27a\x27]")] ∧
    (find_entry (add_generic_data_to_entry (add_generic_data_to_entry c3_lib c3_data 1)
        c3_data 1) 1).map Entry.fields =
      some [EField.mk 7 (FContent.ids [0]),
            EField.mk 5 (FContent.str "Original Tags: [\x27a\x27]"),
            EField.mk 7 (FContent.ids [0])] ∧
    (find_entry (add_generic_data_to_entry (add_generic_data_to_entry c3_lib c3_data 1)
        c3_data 1) 1).map Entry.fields ≠
      (find_entry (add_generic_data_to_entry c3_lib c3_data 1) 1).map Entry.fields := by
  refine ⟨by decide, by decide, by decide⟩

/-- C5 (code bug, evaluated at the failing input): `create_library` at
`/home/lib` puts the schema (seeded with the defaults) at
`home/lib/.TagStudio/<library-filename>` — the location the spec names —
but `open_library` tests `path / LIBRARY_FILENAME` without the library
folder component, finds nothing, and falls back to `create_library`
again (observable in the doubled folder/seed records) instead of opening
the existing database. -/
theorem claim_C5_open_library_schema_check :
    ((create_library (FileSystem.mk [] [] []) ["home", "lib"]).1.files.contains
      (spec_schema_path ["home", "lib"])) = true ∧
    ((create_library (FileSystem.mk [] [] []) ["home", "lib"]).1.files.contains
      (["home", "lib", LIBRARY_FILENAME])) = false ∧
    open_library (create_library (FileSystem.mk [] [] []) ["home", "lib"]).1 ["home", "lib"] =
      create_library (create_library (FileSystem.mk [] [] []) ["home", "lib"]).1 ["home", "lib"] ∧
    (open_library (create_library (FileSystem.mk [] [] []) ["home", "lib"]).1
        ["home", "lib"]).1.seeded =
      [spec_schema_path ["home", "lib"], spec_schema_path ["home", "lib"]] := by
  refine ⟨by decide, by decide, by decide, by decide⟩

/-- C7 (code bug, evaluated at the failing input): the generic
`get_object_by_id` helper does fail with NotFound on a missing id (its
`None` check precedes the expunge), but `get_entry` on an unknown entry id
fails with SQLAlchemy's `UnmappedInstanceError` — raised by
`session.expunge(entry)` on `None` before the NotFound check is reached —
which is a different failure. -/
theorem claim_C7_get_by_id_not_found :
    get_object_by_id [((1 : Nat), "v")] 2 = Except.error PyErr.notFound ∧
    get_entry (Library.mk [Entry.mk 1 []] [] [] [] [] 1000) 99 =
      Except.error PyErr.unmappedInstance ∧
    PyErr.unmappedInstance ≠ PyErr.notFound := by
  refine ⟨rfl, rfl, by decide⟩

/-- C8 counterexample: rendering the nonexistent file `file.xyz` — whose
extension belongs to none of the recognised classes — with a ratio update
requested does not produce the broken-placeholder bitmap: the
unrecognised-extension branch never touches the file and composites the
generic-file placeholder instead. -/
theorem claim_C8_counterexample :
    render_missing "file.xyz" 128 128 1 false false true =
      RenderResult.mk [1]
        (Emitted.rendered (Bitmap.decoded_rounded 128 128) 128 128 "xyz") ∧
    Emitted.rendered (Bitmap.decoded_rounded 128 128) 128 128 "xyz" ≠
      Emitted.rendered (Bitmap.broken 128 128) 128 128 "xyz" := by
  have h1 : splitext_ext "file.xyz" = "xyz" := by decide
  have h2 : IMAGE_TYPES.contains "xyz" = false := by decide
  have h3 : RAW_IMAGE_TYPES.contains "xyz" = false := by decide
  have h4 : VIDEO_TYPES.contains "xyz" = false := by decide
  have h5 : PLAINTEXT_TYPES.contains "xyz" = false := by decide
  have h6 : ¬("file.xyz" = "") := by decide
  refine ⟨?_, by decide⟩
  simp only [render_missing, h1, h2, h3, h4, h5]
  norm_num [h6]

/-- C8 (amended): for a nonexistent file whose extension belongs to one of
the four recognised classes (ordinary image, raw image, video, plain
text), a non-loading render with a ratio update requested emits aspect
ratio 1 and the broken-placeholder bitmap resized to the square of side
`ceil(max(box_w, box_h) * pixel_ratio)`, without raising (every exception
a missing file provokes is in the caught tuple); an unrecognised extension
instead yields the generic-file placeholder (see the counterexample). -/
theorem claim_C8_thumbnail_fallback_amended
    (fp : String) (bw bh : Nat) (pr : ℚ) (grad : Bool)
    (hext : IMAGE_TYPES.contains (splitext_ext fp) = true ∨
            RAW_IMAGE_TYPES.contains (splitext_ext fp) = true ∨
            VIDEO_TYPES.contains (splitext_ext fp) = true ∨
            PLAINTEXT_TYPES.contains (splitext_ext fp) = true) :
    render_missing fp bw bh pr false grad true =
      RenderResult.mk [1]
        (Emitted.rendered
          (Bitmap.broken (⌈(max bw bh : ℚ) * pr⌉) (⌈(max bw bh : ℚ) * pr⌉))
          (⌈((⌈(max bw bh : ℚ) * pr⌉ : ℚ)) / pr⌉) (⌈((⌈(max bw bh : ℚ) * pr⌉ : ℚ)) / pr⌉)
          (splitext_ext fp)) := by
  have hfp : ¬(fp = "") := by
    intro h
    rw [h] at hext
    have hemp : splitext_ext "" = "" := by decide
    rw [hemp] at hext
    revert hext
    decide
  have hmem : splitext_ext fp ∈ IMAGE_TYPES ∨ splitext_ext fp ∈ RAW_IMAGE_TYPES ∨
      splitext_ext fp ∈ VIDEO_TYPES ∨ splitext_ext fp ∈ PLAINTEXT_TYPES := by
    simpa using hext
  simp [render_missing, hfp, hmem]

/-- Witness for C8 (amended): the nonexistent `a.png` with box 128×128 and
pixel ratio 1 renders as the broken placeholder at 128×128 with ratio 1. -/
theorem claim_C8_thumbnail_fallback_amended_witness :
    render_missing "a.png" 128 128 1 false false true =
      RenderResult.mk [1] (Emitted.rendered (Bitmap.broken 128 128) 128 128 "png") := by
  have h := claim_C8_thumbnail_fallback_amended "a.png" 128 128 1 false
    (Or.inl (by decide))
  rw [h]
  have hs : splitext_ext "a.png" = "png" := by decide
  rw [hs]
  norm_num

lemma pyIdx_natCast (len n : Nat) (h : n < len) : pyIdx len (n : Int) = some n := by
  have h1 : ¬((n : Int) < 0) := by omega
  have h2 : (0 : Int) ≤ (n : Int) ∧ (n : Int) < (len : Int) := ⟨by omega, by exact_mod_cast h⟩
  simp [pyIdx, h1, h2]

lemma pyGet_natCast (l : List α) (n : Nat) (h : n < l.length) :
    pyGet l (n : Int) = l[n]? := by
  simp [pyGet, pyIdx_natCast _ _ h]

lemma set_scrollbar_natCast (l : List NavigationState) (n : Nat) (v : Int)
    (fr : NavigationState) (h : l[n]? = some fr) :
    set_scrollbar l (n : Int) v = l.set n { fr with scrollbar_pos := v } := by
  have hn : n < l.length := by
    by_contra hc
    rw [List.getElem?_eq_none (by omega)] at h
    exact Option.noConfusion h
  simp [set_scrollbar, pyIdx_natCast _ _ hn, h]

/-- C6: from a position strictly inside the stack, `nav_forward` with new
frame content first truncates the stack to the current position
(discarding every forward frame); when the frame being left has non-empty
contents it is kept (its scrollbar position updated), the new record is
appended and the index advances by one; when it is empty it is dropped and
replaced by the new record without advancing the index.  Concretely,
history `[A, B, C]` at index 1 with non-empty `B` and new content `D`
yields `[A, B, D]` at index 2. -/
theorem claim_C6_nav_forward_truncation
    (frames : List NavigationState) (n : Nat) (c : List Nat)
    (page_index page_count sb : Int) (st : String)
    (hlen : n + 1 < frames.length) :
    (∀ fr, frames[n]? = some fr → fr.contents ≠ [] →
      nav_forward (Driver.mk frames (n : Int)) (some c) page_index page_count sb st =
        Driver.mk ((frames.take (n + 1)).set n { fr with scrollbar_pos := sb } ++
          [NavigationState.mk c 0 page_index page_count st none none]) ((n : Int) + 1)) ∧
    (∀ fr, frames[n]? = some fr → fr.contents = [] →
      nav_forward (Driver.mk frames (n : Int)) (some c) page_index page_count sb st =
        Driver.mk (frames.take n ++
          [NavigationState.mk c sb page_index page_count st none none]) (n : Int)) ∧
    nav_forward
        (Driver.mk [NavigationState.mk [1] 10 0 1 "a" none none,
          NavigationState.mk [2] 20 0 1 "b" none none,
          NavigationState.mk [3] 30 0 1 "c" none none] 1)
        (some [4]) 0 1 99 "d" =
      Driver.mk [NavigationState.mk [1] 10 0 1 "a" none none,
        NavigationState.mk [2] 99 0 1 "b" none none,
        NavigationState.mk [4] 0 0 1 "d" none none] 2 := by
  have htake : (frames.take (n + 1)).length = n + 1 := by
    rw [List.length_take]
    omega
  have hmid : ((frames.length : Int) > (n : Int) + 1) := by exact_mod_cast hlen
  have htoNat : ((n : Int) + 1).toNat = n + 1 := by omega
  have hget_take : (frames.take (n + 1))[n]? = frames[n]? :=
    List.getElem?_take_of_lt (by omega)
  refine ⟨?_, ?_, by decide⟩
  · intro fr hfr hne
    have hdec : drop_empty_current (frames.take (n + 1)) (n : Int) =
        (frames.take (n + 1), false) := by
      rw [drop_empty_current, pyGet_natCast _ _ (by rw [htake]; omega), hget_take, hfr]
      simp [List.isEmpty_iff, hne]
    have hset : set_scrollbar (frames.take (n + 1) ++
        [NavigationState.mk c 0 page_index page_count st none none]) (n : Int) sb =
        (frames.take (n + 1)).set n { fr with scrollbar_pos := sb } ++
          [NavigationState.mk c 0 page_index page_count st none none] := by
      rw [set_scrollbar_natCast _ n sb fr
        (by rw [List.getElem?_append_left (by rw [htake]; omega), hget_take]; exact hfr)]
      rw [List.set_append_left _ _ (by rw [htake]; omega)]
    simp only [nav_forward, if_pos hmid, htoNat, hdec, hset]
    simp
  · intro fr hfr hemp
    have hdrop : (frames.take (n + 1)).dropLast = frames.take n := by
      rw [List.dropLast_eq_take, htake]
      simp [List.take_take]
    have hdec : drop_empty_current (frames.take (n + 1)) (n : Int) =
        (frames.take n, true) := by
      rw [drop_empty_current, pyGet_natCast _ _ (by rw [htake]; omega), hget_take, hfr]
      simp [List.isEmpty_iff, hemp, hdrop]
    have hlen_take : (frames.take n).length = n := by
      rw [List.length_take]
      omega
    have hset : set_scrollbar (frames.take n ++
        [NavigationState.mk c 0 page_index page_count st none none]) (n : Int) sb =
        frames.take n ++ [NavigationState.mk c sb page_index page_count st none none] := by
      rw [set_scrollbar_natCast _ n sb (NavigationState.mk c 0 page_index page_count st none none)
        (by rw [List.getElem?_append_right (by omega), hlen_take]; simp)]
      rw [List.set_append_right _ _ (by omega)]
      simp [hlen_take]
    simp only [nav_forward, if_pos hmid, htoNat, hdec, hset]
    simp

/-- Witness for C6: the concrete `[A, B, C]` at index 1, non-empty `B`,
new content `D` instance, obtained from the theorem. -/
theorem claim_C6_nav_forward_truncation_witness :
    nav_forward
        (Driver.mk [NavigationState.mk [1] 10 0 1 "a" none none,
          NavigationState.mk [2] 20 0 1 "b" none none,
          NavigationState.mk [3] 30 0 1 "c" none none] 1)
        (some [4]) 0 1 99 "d" =
      Driver.mk [NavigationState.mk [1] 10 0 1 "a" none none,
        NavigationState.mk [2] 99 0 1 "b" none none,
        NavigationState.mk [4] 0 0 1 "d" none none] 2 := by
  have h := (claim_C6_nav_forward_truncation
    [NavigationState.mk [1] 10 0 1 "a" none none,
     NavigationState.mk [2] 20 0 1 "b" none none,
     NavigationState.mk [3] 30 0 1 "c" none none] 1 [4] 0 1 99 "d" (by decide)).1
    (NavigationState.mk [2] 20 0 1 "b" none none) (by decide) (by decide)
  exact h.trans (by decide)

/-- C10: with a positive current index (within range), `nav_back`
decrements the index by exactly one and changes only the scrollbar
position recorded on the frame being left — the stack length and every
other frame and field (contents, page index, page count, search text) are
unchanged; with index 0 or below it changes nothing. -/
theorem claim_C10_nav_back_frame_effect
    (frames : List NavigationState) (n : Nat) (sb : Int)
    (hpos : 0 < n) (hlen : n < frames.length) :
    (∀ fr, frames[n]? = some fr →
      nav_back (Driver.mk frames (n : Int)) sb =
        Driver.mk (frames.set n { fr with scrollbar_pos := sb }) ((n : Int) - 1) ∧
      (frames.set n { fr with scrollbar_pos := sb }).length = frames.length ∧
      (∀ k, k ≠ n →
        (frames.set n { fr with scrollbar_pos := sb })[k]? = frames[k]?) ∧
      ({ fr with scrollbar_pos := sb }).contents = fr.contents ∧
      ({ fr with scrollbar_pos := sb }).page_index = fr.page_index ∧
      ({ fr with scrollbar_pos := sb }).page_count = fr.page_count ∧
      ({ fr with scrollbar_pos := sb }).search_text = fr.search_text) ∧
    (∀ (d : Driver) (sb' : Int), d.cur_frame_idx ≤ 0 → nav_back d sb' = d) := by
  constructor
  · intro fr hfr
    refine ⟨?_, List.length_set _ _ _,
      fun k hk => List.getElem?_set_ne (by omega), rfl, rfl, rfl, rfl⟩
    simp only [nav_back, if_pos (by exact_mod_cast hpos : ((n : Int) > 0))]
    rw [set_scrollbar_natCast _ n sb fr hfr]
  · intro d sb' hd
    simp [nav_back, show ¬(d.cur_frame_idx > 0) by omega]

/-- Witness for C10: stepping back from index 2 of a three-frame stack
updates only frame 2's scrollbar position and moves to index 1; a driver
at index 0 is unchanged. -/
theorem claim_C10_nav_back_frame_effect_witness :
    nav_back (Driver.mk [NavigationState.mk [1] 10 0 1 "a" none none,
      NavigationState.mk [2] 20 0 1 "b" none none,
      NavigationState.mk [3] 30 0 1 "c" none none] 2) 77 =
      Driver.mk [NavigationState.mk [1] 10 0 1 "a" none none,
        NavigationState.mk [2] 20 0 1 "b" none none,
        NavigationState.mk [3] 77 0 1 "c" none none] 1 ∧
    nav_back (Driver.mk [NavigationState.mk [1] 10 0 1 "a" none none] 0) 77 =
      Driver.mk [NavigationState.mk [1] 10 0 1 "a" none none] 0 := by
  have h := claim_C10_nav_back_frame_effect
    [NavigationState.mk [1] 10 0 1 "a" none none,
     NavigationState.mk [2] 20 0 1 "b" none none,
     NavigationState.mk [3] 30 0 1 "c" none none] 2 77 (by decide) (by decide)
  refine ⟨?_, h.2 _ 77 (by decide)⟩
  have h1 := (h.1 (NavigationState.mk [3] 30 0 1 "c" none none) (by decide)).1
  exact h1.trans (by decide)

lemma foldl_inv {β : Type _} {α : Type _} {Q : β → Prop} {R : α → Prop} {step : β → α → β}
    (hstep : ∀ b a, Q b → R a → Q (step b a)) :
    ∀ (L : List α) (b : β), (∀ x ∈ L, R x) → Q b → Q (L.foldl step b) := by
  intro L
  induction L with
  | nil => exact fun b _ hb => hb
  | cons a rest ih =>
    intro b hR hb
    exact ih _ (fun x hx => hR x (List.mem_cons_of_mem _ hx))
      (hstep b a hb (hR a (List.mem_cons_self _ _)))

lemma find_entry_set_entry_fields (lib : Library) (id : Nat) (fs : List EField) (i : Nat) :
    find_entry (set_entry_fields lib id fs) i =
      (find_entry lib i).map (fun e => if e.id == id then Entry.mk e.id fs else e) := by
  have hid : ∀ e : Entry, (if e.id == id then Entry.mk e.id fs else e).id = e.id := by
    intro e
    by_cases h : e.id == id <;> simp [h]
  have hfun : ((fun e : Entry => e.id == i) ∘
      (fun e => if e.id == id then Entry.mk e.id fs else e)) = (fun e : Entry => e.id == i) :=
    funext fun e => by
      simp only [Function.comp]
      by_cases h : e.id == id <;> simp [h]
  simp only [find_entry, set_entry_fields, List.find?_map, hfun]

lemma find_entry_id (lib : Library) (i : Nat) (e : Entry) (h : find_entry lib i = some e) :
    e.id = i := by
  have := List.find?_some h
  simpa using this

lemma mirror_assign_find_ne (fs : List EField) (lib : Library) (id i : Nat) (h : i ≠ id) :
    find_entry (mirror_assign fs lib id) i = find_entry lib i := by
  unfold mirror_assign
  cases hf : find_entry lib id with
  | none => rfl
  | some e =>
    rw [find_entry_set_entry_fields]
    cases hfi : find_entry lib i with
    | none => rfl
    | some e' =>
      have he' : e'.id = i := find_entry_id _ _ _ hfi
      simp [he', h]

lemma mirror_assign_find_self (fs : List EField) (lib : Library) (i : Nat)
    (h : (find_entry lib i).isSome) :
    (find_entry (mirror_assign fs lib i) i).map Entry.fields = some fs := by
  obtain ⟨e, he⟩ := Option.isSome_iff_exists.mp h
  unfold mirror_assign
  rw [he, find_entry_set_entry_fields, he]
  have : e.id = i := find_entry_id _ _ _ he
  simp [this]

lemma mirror_assign_isSome (fs : List EField) (lib : Library) (id i : Nat) :
    (find_entry (mirror_assign fs lib id) i).isSome = (find_entry lib i).isSome := by
  unfold mirror_assign
  cases hf : find_entry lib id with
  | none => rfl
  | some e => rw [find_entry_set_entry_fields]; cases find_entry lib i <;> rfl

lemma foldl_mirror_assign_ne (fs : List EField) :
    ∀ (ids : List Nat) (lib : Library) (i : Nat), i ∉ ids →
      find_entry (ids.foldl (mirror_assign fs) lib) i = find_entry lib i := by
  intro ids
  induction ids with
  | nil => exact fun lib i _ => rfl
  | cons id rest ih =>
    intro lib i hi
    rw [List.foldl_cons, ih _ _ (fun h => hi (List.mem_cons_of_mem _ h)),
      mirror_assign_find_ne _ _ _ _ (fun h => hi (by rw [h]; exact List.mem_cons_self _ _))]

lemma foldl_mirror_assign_mem (fs : List EField) :
    ∀ (ids : List Nat) (lib : Library) (i : Nat), i ∈ ids →
      (∀ id ∈ ids, (find_entry lib id).isSome) →
      (find_entry (ids.foldl (mirror_assign fs) lib) i).map Entry.fields = some fs := by
  intro ids
  induction ids with
  | nil => intro lib i hi; exact absurd hi (List.not_mem_nil i)
  | cons id rest ih =>
    intro lib i hi hall
    rw [List.foldl_cons]
    by_cases hir : i ∈ rest
    · exact ih _ i hir (fun id' h' => by
        rw [mirror_assign_isSome]
        exact hall id' (List.mem_cons_of_mem _ h'))
    · have hieq : i = id := by
        rcases List.mem_cons.mp hi with h | h
        · exact h
        · exact absurd h hir
      subst hieq
      rw [foldl_mirror_assign_ne _ _ _ _ hir]
      exact mirror_assign_find_self _ _ _ (hall i (List.mem_cons_self _ _))

lemma union_into_nodup (af : List EField) (idx i : Nat)
    (h : ∀ f ∈ af, content_nodup f = true) :
    ∀ f ∈ union_into af idx i, content_nodup f = true := by
  unfold union_into
  split
  next f0 hg =>
    split
    next cur hc =>
      split
      next hmem => exact h
      next hmem =>
        intro f hf
        rcases List.mem_or_eq_of_mem_set hf with hin | heq
        · exact h f hin
        · subst heq
          have hf0 : content_nodup f0 = true := h f0 (List.get?_mem hg)
          rw [content_nodup, hc] at hf0
          have hnotin : i ∉ cur := by
            intro hin
            exact hmem (by simpa using hin)
          rw [content_nodup]
          simp only [decide_eq_true_eq] at hf0 ⊢
          simp [List.nodup_append, hf0, hnotin]
    next s hc => exact h
  next hg => exact h

lemma merge_step_nodup (acc : List EField × List Nat) (field : EField)
    (hacc : ∀ f ∈ acc.1, content_nodup f = true)
    (hf : content_nodup field = true) :
    ∀ f ∈ (merge_step acc field).1, content_nodup f = true := by
  obtain ⟨af, ai⟩ := acc
  unfold merge_step
  dsimp only
  dsimp only at hacc
  by_cases h1 : (field_type_of field.fid == "tag_box" && ai.contains field.fid) = true
  · rw [if_pos h1]
    cases hc : field.content with
    | str s => exact hacc
    | ids content =>
      exact foldl_inv (R := fun _ => True)
        (fun af' j hQ _ => union_into_nodup af' _ j hQ) content af
        (fun _ _ => trivial) hacc
  · rw [if_neg h1]
    by_cases h2 : af.contains field = true
    · rw [if_pos h2]
      exact hacc
    · rw [if_neg h2]
      intro f hfm
      rcases List.mem_append.mp hfm with hin | heq
      · exact hacc f hin
      · rw [List.mem_singleton.mp heq]
        exact hf

lemma merge_all_nodup (lib : Library) (entry_ids : List Nat)
    (h : ∀ f ∈ gather_fields lib entry_ids, content_nodup f = true) :
    ∀ f ∈ merge_all lib entry_ids, content_nodup f = true := by
  unfold merge_all
  exact foldl_inv (Q := fun acc => ∀ f ∈ acc.1, content_nodup f = true)
    (fun acc field hQ hR => merge_step_nodup acc field hQ hR)
    (gather_fields lib entry_ids) ([], []) h (by simp)

/-- C4: `mirror_entry_fields` assigns one and the same merged field list —
sorted by the canonical field-id order — to every given entry; within the
merged list tag-box contents stay duplicate-free (given duplicate-free
inputs); and on the concrete instance E1 (tag-box 6 = {100, 101}) and E2
(tag-box 6 = {101, 102}) both entries end with tag-box 6 = {100, 101, 102}.
The hypotheses keep the inputs inside the embedding's faithful domain:
ids present and nonzero (`get_entry` would raise, and the merge skips a
falsy id 0), every occurring field id inside the canonical order list
(`order.index` raises otherwise), and tag-id lists duplicate-free. -/
theorem claim_C4_mirror_entry_fields
    (lib : Library) (entry_ids : List Nat)
    (hne : entry_ids ≠ [])
    (hids : ∀ id ∈ entry_ids, id ≠ 0 ∧ (find_entry lib id).isSome = true)
    (horder : ∀ f ∈ gather_fields lib entry_ids, f.fid ∈ mirror_order)
    (hnodup : ∀ f ∈ gather_fields lib entry_ids, content_nodup f = true) :
    (∀ id ∈ entry_ids,
      (find_entry (mirror_entry_fields lib entry_ids) id).map Entry.fields =
        some (sort_fields_by mirror_order (merge_all lib entry_ids))) ∧
    List.Sorted (fun a b => order_key mirror_order a ≤ order_key mirror_order b)
      (sort_fields_by mirror_order (merge_all lib entry_ids)) ∧
    (∀ f ∈ sort_fields_by mirror_order (merge_all lib entry_ids), content_nodup f = true) ∧
    (find_entry (mirror_entry_fields c4_lib [1, 2]) 1).map Entry.fields =
      some [EField.mk 6 (FContent.ids [100, 101, 102])] ∧
    (find_entry (mirror_entry_fields c4_lib [1, 2]) 2).map Entry.fields =
      some [EField.mk 6 (FContent.ids [100, 101, 102])] := by
  refine ⟨?_, ?_, ?_, by decide, by decide⟩
  · intro id hid
    have hrw : mirror_entry_fields lib entry_ids =
        entry_ids.foldl
          (mirror_assign (sort_fields_by mirror_order (merge_all lib entry_ids))) lib := rfl
    rw [hrw]
    exact foldl_mirror_assign_mem _ entry_ids lib id hid (fun id' h' => (hids id' h').2)
  · haveI : IsTotal EField (fun a b => order_key mirror_order a ≤ order_key mirror_order b) :=
      ⟨fun a b => Nat.le_total _ _⟩
    haveI : IsTrans EField (fun a b => order_key mirror_order a ≤ order_key mirror_order b) :=
      ⟨fun _ _ _ hab hbc => Nat.le_trans hab hbc⟩
    exact List.sorted_insertionSort _ _
  · intro f hf
    exact merge_all_nodup lib entry_ids hnodup f
      ((List.perm_insertionSort _ _).mem_iff.mp hf)

/-- Witness for C4: the concrete two-entry instance discharges every
hypothesis, and entry 1 receives the merged, canonically sorted field
list. -/
theorem claim_C4_mirror_entry_fields_witness :
    (find_entry (mirror_entry_fields c4_lib [1, 2]) 1).map Entry.fields =
      some (sort_fields_by mirror_order (merge_all c4_lib [1, 2])) :=
  (claim_C4_mirror_entry_fields c4_lib [1, 2] (by decide) (by decide) (by decide)
    (by decide)).1 1 (by decide)

lemma chars_le_refl : ∀ a : List Char, chars_le a a = true := by
  intro a
  induction a with
  | nil => rfl
  | cons x xs ih => simp [chars_le, lt_irrefl, ih]

lemma chars_le_total : ∀ a b : List Char, chars_le a b = true ∨ chars_le b a = true := by
  intro a
  induction a with
  | nil => intro b; left; rfl
  | cons x xs ih =>
    intro b
    cases b with
    | nil => right; rfl
    | cons y ys =>
      rcases lt_trichotomy x y with h | h | h
      · left; simp [chars_le, h]
      · subst h
        rcases ih ys with h' | h'
        · left; simp [chars_le, lt_irrefl, h']
        · right; simp [chars_le, lt_irrefl, h']
      · right; simp [chars_le, h]

lemma chars_le_trans :
    ∀ a b c : List Char, chars_le a b = true → chars_le b c = true → chars_le a c = true := by
  intro a
  induction a with
  | nil => intro b c _ _; rfl
  | cons x xs ih =>
    intro b c hab hbc
    cases b with
    | nil => simp [chars_le] at hab
    | cons y ys =>
      cases c with
      | nil => simp [chars_le] at hbc
      | cons z zs =>
        by_cases hxy : x < y
        · by_cases hyz : y < z
          · simp [chars_le, lt_trans hxy hyz]
          · by_cases hzy : z < y
            · simp [chars_le, hyz, hzy] at hbc
            · have hyzeq : y = z := le_antisymm (not_lt.mp hzy) (not_lt.mp hyz)
              subst hyzeq
              simp [chars_le, hxy]
        · by_cases hyx : y < x
          · simp [chars_le, hxy, hyx] at hab
          · have hxyeq : x = y := le_antisymm (not_lt.mp hyx) (not_lt.mp hxy)
            subst hxyeq
            simp only [chars_le, lt_irrefl, if_false] at hab
            by_cases hxz : x < z
            · simp [chars_le, hxz]
            · by_cases hzx : z < x
              · simp [chars_le, hxz, hzx] at hbc
              · have hxzeq : x = z := le_antisymm (not_lt.mp hzx) (not_lt.mp hxz)
                subst hxzeq
                simp only [chars_le, lt_irrefl, if_false] at hbc ⊢
                exact ih ys zs hab hbc

lemma py_str_le_refl (a : String) : py_str_le a a = true := chars_le_refl a.data

lemma py_str_le_total (a b : String) : py_str_le a b = true ∨ py_str_le b a = true :=
  chars_le_total a.data b.data

lemma py_str_le_trans {a b c : String} (h1 : py_str_le a b = true) (h2 : py_str_le b c = true) :
    py_str_le a c = true :=
  chars_le_trans a.data b.data c.data h1 h2

lemma sdict_set_fresh (acc : List (String × String)) (k v : String)
    (h : ∀ kv ∈ acc, kv.1 ≠ k) : sdict_set acc k v = acc ++ [(k, v)] := by
  unfold sdict_set
  rw [if_neg]
  simp only [List.any_eq_true, beq_iff_eq, not_exists, not_and]
  exact fun kv hkv => h kv hkv

lemma fold_sdict_fresh (path : String) :
    ∀ (st acc : List (String × String)),
      (∀ kv ∈ st, ∀ kv' ∈ acc, kv.1 ≠ kv'.1) → (st.map Prod.fst).Nodup →
      st.foldl (fun acc kv => if kv.2 ≠ path then sdict_set acc kv.1 kv.2 else acc) acc =
        acc ++ st.filter (fun kv => kv.2 ≠ path) := by
  intro st
  induction st with
  | nil => intro acc _ _; simp
  | cons kv rest ih =>
    intro acc hdisj hnd
    rw [List.foldl_cons]
    by_cases hp : kv.2 ≠ path
    · rw [if_pos hp, sdict_set_fresh _ _ _ (fun kv' h' =>
        (hdisj kv (List.mem_cons_self _ _) kv' h').symm)]
      rw [ih (acc ++ [(kv.1, kv.2)]) ?hdisj ?hnd]
      case hdisj =>
        intro kv' h' kv'' h''
        rcases List.mem_append.mp h'' with hin | heq
        · exact hdisj kv' (List.mem_cons_of_mem _ h') kv'' hin
        · rw [List.mem_singleton.mp heq]
          intro hcontra
          have : kv.1 ∈ rest.map Prod.fst := by
            exact List.mem_map.mpr ⟨kv', h', hcontra⟩
          rw [List.map_cons] at hnd
          exact (List.nodup_cons.mp hnd).1 this
      case hnd =>
        rw [List.map_cons] at hnd
        exact (List.nodup_cons.mp hnd).2
      rw [List.filter_cons_of_pos (by simpa using hp)]
      simp
    · rw [if_neg hp]
      rw [ih acc (fun kv' h' => hdisj kv' (List.mem_cons_of_mem _ h')) ?hnd2]
      case hnd2 =>
        rw [List.map_cons] at hnd
        exact (List.nodup_cons.mp hnd).2
      rw [List.filter_cons_of_neg (by simpa using hp)]

lemma update_libs_list_eq (st : List (String × String)) (nk path : String)
    (hsorted : st.Pairwise (fun a b => py_str_le a.1 b.1 = false))
    (hfresh : ∀ kv ∈ st, py_str_le nk kv.1 = false) :
    update_libs_list st nk path =
      ((nk, path) :: st.filter (fun kv => kv.2 ≠ path)).take 5 := by
  have hkey_ne : ∀ kv ∈ st, kv.1 ≠ nk := by
    intro kv hkv heq
    have hr := hfresh kv hkv
    rw [heq, py_str_le_refl] at hr
    exact Bool.noConfusion hr
  have hnd_keys : (st.map Prod.fst).Nodup := by
    unfold List.Nodup
    rw [List.pairwise_map]
    refine List.Pairwise.imp ?_ hsorted
    intro a b hab heq
    rw [heq, py_str_le_refl] at hab
    exact Bool.noConfusion hab
  unfold update_libs_list
  rw [fold_sdict_fresh path st [(nk, path)] ?disj hnd_keys]
  case disj =>
    intro kv hkv kv' hkv'
    rw [List.mem_singleton.mp hkv']
    exact hkey_ne kv hkv
  rw [List.singleton_append]
  dsimp only
  rw [List.Sorted.insertionSort_eq ?sorted]
  case sorted =>
    rw [List.sorted_cons]
    constructor
    · intro b hb
      have hbst : b ∈ st := List.mem_of_mem_filter hb
      rcases py_str_le_total nk b.1 with h | h
      · rw [hfresh b hbst] at h
        exact Bool.noConfusion h
      · exact h
    · refine List.Pairwise.imp ?_ (hsorted.filter _)
      intro a b hab
      rcases py_str_le_total a.1 b.1 with h | h
      · rw [hab] at h
        exact Bool.noConfusion h
      · exact h

lemma update_libs_list_inv (st : List (String × String)) (nk path : String)
    (hsorted : st.Pairwise (fun a b => py_str_le a.1 b.1 = false))
    (hnd : (st.map Prod.snd).Nodup)
    (hfresh : ∀ kv ∈ st, py_str_le nk kv.1 = false) :
    (update_libs_list st nk path).Pairwise (fun a b => py_str_le a.1 b.1 = false) ∧
    ((update_libs_list st nk path).map Prod.snd).Nodup ∧
    (update_libs_list st nk path).length ≤ 5 ∧
    (∀ kv ∈ update_libs_list st nk path, kv.1 = nk ∨ kv ∈ st) := by
  rw [update_libs_list_eq st nk path hsorted hfresh]
  have hfsub : List.Sublist (st.filter (fun kv => kv.2 ≠ path)) st := List.filter_sublist _
  refine ⟨?_, ?_, List.length_take_le _ _, ?_⟩
  · refine List.Pairwise.sublist (List.take_sublist _ _) ?_
    rw [List.pairwise_cons]
    exact ⟨fun b hb => hfresh b (List.mem_of_mem_filter hb), hsorted.filter _⟩
  · rw [List.map_take]
    refine List.Nodup.sublist (List.take_sublist _ _) ?_
    rw [List.map_cons, List.nodup_cons]
    constructor
    · intro hmem
      obtain ⟨kv, hkv, hp⟩ := List.mem_map.mp hmem
      have := (List.mem_filter.mp hkv).2
      rw [hp] at this
      simp at this
    · exact List.Nodup.sublist (hfsub.map _) hnd
  · intro kv hkv
    have hmem := (List.take_sublist _ _).subset hkv
    rcases List.mem_cons.mp hmem with heq | hin
    · left
      rw [heq]
    · right
      exact hfsub.subset hin

lemma open_sequence_aux :
    ∀ (opens st : List (String × String)),
      st.Pairwise (fun a b => py_str_le a.1 b.1 = false) →
      (st.map Prod.snd).Nodup → st.length ≤ 5 →
      (∀ kv ∈ st, ∀ op ∈ opens, py_str_le op.1 kv.1 = false) →
      opens.Pairwise (fun a b => py_str_le b.1 a.1 = false) →
      (opens.foldl (fun st kp => update_libs_list st kp.1 kp.2) st).Pairwise
        (fun a b => py_str_le a.1 b.1 = false) ∧
      ((opens.foldl (fun st kp => update_libs_list st kp.1 kp.2) st).map Prod.snd).Nodup ∧
      (opens.foldl (fun st kp => update_libs_list st kp.1 kp.2) st).length ≤ 5 := by
  intro opens
  induction opens with
  | nil => exact fun st h1 h2 h3 _ _ => ⟨h1, h2, h3⟩
  | cons op rest ih =>
    intro st h1 h2 h3 hbound hchain
    rw [List.foldl_cons]
    obtain ⟨hc1, hc2⟩ := List.pairwise_cons.mp hchain
    obtain ⟨i1, i2, i3, i4⟩ := update_libs_list_inv st op.1 op.2 h1 h2
      (fun kv hkv => hbound kv hkv op (List.mem_cons_self _ _))
    refine ih _ i1 i2 i3 ?_ hc2
    intro kv hkv op' hop'
    rcases i4 kv hkv with heq | hin
    · rw [heq]
      exact hc1 op' hop'
    · exact hbound kv hin op' (List.mem_cons_of_mem _ hop')

/-- C9: starting from the pristine settings store, any sequence of
`open_library` calls whose timestamp keys are fresh and increasing leaves
a recent-libraries list of at most 5 entries with no duplicate path,
ordered most-recently-opened first (each earlier entry's key strictly
above each later one's); opening 6 distinct paths in sequence leaves
exactly the 5 most recent, the first-opened path evicted. -/
theorem claim_C9_recent_libraries_cap (opens : List (String × String))
    (hchain : opens.Pairwise (fun a b => py_str_le b.1 a.1 = false)) :
    (open_sequence opens).length ≤ 5 ∧
    ((open_sequence opens).map Prod.snd).Nodup ∧
    (open_sequence opens).Pairwise (fun a b => py_str_le a.1 b.1 = false) ∧
    open_sequence c9_opens =
      [("6", "p6"), ("5", "p5"), ("4", "p4"), ("3", "p3"), ("2", "p2")] := by
  obtain ⟨h1, h2, h3⟩ := open_sequence_aux opens [] List.Pairwise.nil (by simp) (by simp)
    (by simp) hchain
  exact ⟨h3, h2, h1, by decide⟩

/-- Witness for C9: the six distinct opens at increasing timestamps
discharge the freshness hypothesis; the store ends with exactly 5
deduplicated entries, most recent first. -/
theorem claim_C9_recent_libraries_cap_witness :
    (open_sequence c9_opens).length ≤ 5 ∧
    ((open_sequence c9_opens).map Prod.snd).Nodup ∧
    open_sequence c9_opens =
      [("6", "p6"), ("5", "p5"), ("4", "p4"), ("3", "p3"), ("2", "p2")] := by
  have h := claim_C9_recent_libraries_cap c9_opens (by decide)
  exact ⟨h.1, h.2.1, h.2.2.2⟩

end TagStudio
